import Mathlib

/-!
Verification of the scene transformation and shader-attribute pipeline of the
CS330 OpenGL 3D-scene renderer (`SceneManager.cpp`, `ViewManager.cpp`).

The C++ code is shallowly embedded over exact rational arithmetic:
`float` values become `ℚ`, the trigonometric functions used by the glm
rotation matrices are abstract parameters `cosF sinF : ℚ → ℚ` (and `pi : ℚ`),
GPU uniform state becomes an explicit `ShaderState` record, and the
`SceneManager` member state (texture registry, material registry) becomes a
`SceneState` record threaded through the embedded member functions.
Compound-object assemblers (`DrawJar`) are embedded as the trace of calls
they issue (`RenderEvent` lists).
-/

/-- glm::vec2 over exact rationals. -/
structure Vec2 where
  x : ℚ
  y : ℚ
deriving DecidableEq, Repr

/-- glm::vec3 over exact rationals. -/
structure Vec3 where
  x : ℚ
  y : ℚ
  z : ℚ
deriving DecidableEq, Repr

/-- glm::vec4 over exact rationals (used as RGBA colors). -/
structure Vec4 where
  x : ℚ
  y : ℚ
  z : ℚ
  w : ℚ
deriving DecidableEq, Repr

/-- A 4x4 matrix in mathematical (row, column) layout.  glm stores matrices
column-major; `glm_m[c][r]` is entry `m⟨r⟩⟨c⟩` here, and glm's `operator*`
is ordinary matrix multiplication on this layout. -/
structure Mat4 where
  m00 : ℚ
  m01 : ℚ
  m02 : ℚ
  m03 : ℚ
  m10 : ℚ
  m11 : ℚ
  m12 : ℚ
  m13 : ℚ
  m20 : ℚ
  m21 : ℚ
  m22 : ℚ
  m23 : ℚ
  m30 : ℚ
  m31 : ℚ
  m32 : ℚ
  m33 : ℚ
deriving DecidableEq, Repr

/-- Matrix multiplication, entry (r,c) = Σ_k A(r,k)·B(k,c). -/
def Mat4.mul (A B : Mat4) : Mat4 where
  m00 := A.m00 * B.m00 + A.m01 * B.m10 + A.m02 * B.m20 + A.m03 * B.m30
  m01 := A.m00 * B.m01 + A.m01 * B.m11 + A.m02 * B.m21 + A.m03 * B.m31
  m02 := A.m00 * B.m02 + A.m01 * B.m12 + A.m02 * B.m22 + A.m03 * B.m32
  m03 := A.m00 * B.m03 + A.m01 * B.m13 + A.m02 * B.m23 + A.m03 * B.m33
  m10 := A.m10 * B.m00 + A.m11 * B.m10 + A.m12 * B.m20 + A.m13 * B.m30
  m11 := A.m10 * B.m01 + A.m11 * B.m11 + A.m12 * B.m21 + A.m13 * B.m31
  m12 := A.m10 * B.m02 + A.m11 * B.m12 + A.m12 * B.m22 + A.m13 * B.m32
  m13 := A.m10 * B.m03 + A.m11 * B.m13 + A.m12 * B.m23 + A.m13 * B.m33
  m20 := A.m20 * B.m00 + A.m21 * B.m10 + A.m22 * B.m20 + A.m23 * B.m30
  m21 := A.m20 * B.m01 + A.m21 * B.m11 + A.m22 * B.m21 + A.m23 * B.m31
  m22 := A.m20 * B.m02 + A.m21 * B.m12 + A.m22 * B.m22 + A.m23 * B.m32
  m23 := A.m20 * B.m03 + A.m21 * B.m13 + A.m22 * B.m23 + A.m23 * B.m33
  m30 := A.m30 * B.m00 + A.m31 * B.m10 + A.m32 * B.m20 + A.m33 * B.m30
  m31 := A.m30 * B.m01 + A.m31 * B.m11 + A.m32 * B.m21 + A.m33 * B.m31
  m32 := A.m30 * B.m02 + A.m31 * B.m12 + A.m32 * B.m22 + A.m33 * B.m32
  m33 := A.m30 * B.m03 + A.m31 * B.m13 + A.m32 * B.m23 + A.m33 * B.m33

instance : Mul Mat4 := ⟨Mat4.mul⟩

/-- The identity matrix (glm::mat4 default). -/
def Mat4.identity : Mat4 :=
  ⟨1, 0, 0, 0, 0, 1, 0, 0, 0, 0, 1, 0, 0, 0, 0, 1⟩

/-- glm::radians: degrees → radians, i.e. `deg * pi / 180`.  `pi` is kept as
a parameter because π is not rational; every theorem quantifies over it. -/
def glmRadians (pi deg : ℚ) : ℚ :=
  deg * (pi / 180)

/-- glm::scale(v): diagonal scale matrix. -/
def glmScale (v : Vec3) : Mat4 :=
  ⟨v.x, 0, 0, 0, 0, v.y, 0, 0, 0, 0, v.z, 0, 0, 0, 0, 1⟩

/-- glm::translate(v): translation matrix (translation in the last column,
i.e. glm column `m[3]`). -/
def glmTranslate (v : Vec3) : Mat4 :=
  ⟨1, 0, 0, v.x, 0, 1, 0, v.y, 0, 0, 1, v.z, 0, 0, 0, 1⟩

/-- glm::rotate(angle, axis): the Rodrigues axis-angle rotation matrix built
from `c = cos angle`, `s = sin angle` and the axis `(ax, ay, az)`,
transcribed from glm's `rotate` (glm normalizes the axis first; the source
only ever passes the unit axes (1,0,0), (0,1,0), (0,0,1), on which
normalization is the identity, so it is omitted here). -/
def glmRotate (c s ax ay az : ℚ) : Mat4 :=
  ⟨c + (1 - c) * ax * ax, (1 - c) * ay * ax - s * az, (1 - c) * az * ax + s * ay, 0,
   (1 - c) * ax * ay + s * az, c + (1 - c) * ay * ay, (1 - c) * az * ay - s * ax, 0,
   (1 - c) * ax * az - s * ay, (1 - c) * ay * az + s * ax, c + (1 - c) * az * az, 0,
   0, 0, 0, 1⟩

/-- SceneManager::SetTransformations, the matrix it computes:
`modelView = translation * rotationX * rotationY * rotationZ * scale`, each
rotation built by `glm::rotate(glm::radians(angle), axis)`
(SceneManager.cpp lines 257-287). -/
def SetTransformationsMatrix (cosF sinF : ℚ → ℚ) (pi : ℚ) (scaleXYZ : Vec3)
    (XrotationDegrees YrotationDegrees ZrotationDegrees : ℚ)
    (positionXYZ : Vec3) : Mat4 :=
  let scale := glmScale scaleXYZ
  let rotationX := glmRotate (cosF (glmRadians pi XrotationDegrees))
    (sinF (glmRadians pi XrotationDegrees)) 1 0 0
  let rotationY := glmRotate (cosF (glmRadians pi YrotationDegrees))
    (sinF (glmRadians pi YrotationDegrees)) 0 1 0
  let rotationZ := glmRotate (cosF (glmRadians pi ZrotationDegrees))
    (sinF (glmRadians pi ZrotationDegrees)) 0 0 1
  let translation := glmTranslate positionXYZ
  translation * rotationX * rotationY * rotationZ * scale

/-- Modelled from the spec: the standard rotation matrix about the X axis. -/
def specRotateX (c s : ℚ) : Mat4 :=
  ⟨1, 0, 0, 0, 0, c, -s, 0, 0, s, c, 0, 0, 0, 0, 1⟩

/-- Modelled from the spec: the standard rotation matrix about the Y axis. -/
def specRotateY (c s : ℚ) : Mat4 :=
  ⟨c, 0, s, 0, 0, 1, 0, 0, -s, 0, c, 0, 0, 0, 0, 1⟩

/-- Modelled from the spec: the standard rotation matrix about the Z axis. -/
def specRotateZ (c s : ℚ) : Mat4 :=
  ⟨c, -s, 0, 0, s, c, 0, 0, 0, 0, 1, 0, 0, 0, 0, 1⟩

/-- Modelled from the spec: the standard translation matrix. -/
def specTranslate (v : Vec3) : Mat4 :=
  ⟨1, 0, 0, v.x, 0, 1, 0, v.y, 0, 0, 1, v.z, 0, 0, 0, 1⟩

/-- Modelled from the spec: the standard diagonal scale matrix. -/
def specScale (v : Vec3) : Mat4 :=
  ⟨v.x, 0, 0, 0, 0, v.y, 0, 0, 0, 0, v.z, 0, 0, 0, 0, 1⟩

/-- Modelled from the spec (§4.2): `model = Translate(position) *
RotateX(x) * RotateY(y) * RotateZ(z) * Scale(scale)`, with each angle
converted from degrees to radians before its rotation matrix is built. -/
def specModelMatrix (cosF sinF : ℚ → ℚ) (pi : ℚ) (scaleXYZ : Vec3)
    (xDeg yDeg zDeg : ℚ) (positionXYZ : Vec3) : Mat4 :=
  specTranslate positionXYZ *
    specRotateX (cosF (glmRadians pi xDeg)) (sinF (glmRadians pi xDeg)) *
    specRotateY (cosF (glmRadians pi yDeg)) (sinF (glmRadians pi yDeg)) *
    specRotateZ (cosF (glmRadians pi zDeg)) (sinF (glmRadians pi zDeg)) *
    specScale scaleXYZ

/-- Result of stbi_load: width, height, channel count (pixel data itself
never influences control flow and is not modeled). -/
structure ImageData where
  width : Nat
  height : Nat
  colorChannels : Nat
deriving DecidableEq, Repr

/-- SceneManager::TEXTURE_INFO (SceneManager.h lines 38-42). -/
structure TEXTURE_INFO where
  tag : String
  ID : Nat
deriving DecidableEq, Repr

/-- SceneManager::OBJECT_MATERIAL (SceneManager.h lines 44-52). -/
structure OBJECT_MATERIAL where
  ambientStrength : ℚ
  ambientColor : Vec3
  diffuseColor : Vec3
  specularColor : Vec3
  shininess : ℚ
  tag : String
deriving DecidableEq, Repr

/-- The shader uniforms written by SceneManager, one field per uniform name:
"model", "objectColor", "bUseTexture", "objectTexture" (sampler slot),
"UVscale" and the five "material.*" uniforms. -/
structure ShaderState where
  model : Mat4
  objectColor : Vec4
  bUseTexture : Bool
  objectTexture : Int
  UVscale : Vec2
  materialAmbientColor : Vec3
  materialAmbientStrength : ℚ
  materialDiffuseColor : Vec3
  materialSpecularColor : Vec3
  materialShininess : ℚ
deriving DecidableEq, Repr

/-- The SceneManager member state: `m_loadedTextures`, the backing array
`m_textureIDs[16]` (modeled as unbounded index-addressed memory; the 16-slot
bound is tracked by the capacity theorems), `m_objectMaterials`, a fresh-ID
counter standing in for glGenTextures, and the shader uniform store. -/
structure SceneState where
  loadedTextures : Nat
  textureIDs : Nat → TEXTURE_INFO
  objectMaterials : List OBJECT_MATERIAL
  nextTextureID : Nat
  shader : ShaderState

/-- Shader uniforms before anything is written (concrete but arbitrary). -/
def initialShaderState : ShaderState :=
  ⟨Mat4.identity, ⟨0, 0, 0, 0⟩, false, 0, ⟨1, 1⟩, ⟨0, 0, 0⟩, 0, ⟨0, 0, 0⟩, ⟨0, 0, 0⟩, 0⟩

/-- SceneManager state at construction: no textures, no materials. -/
def initialSceneState : SceneState :=
  ⟨0, fun _ => ⟨"", 0⟩, [], 1, initialShaderState⟩

/-- SceneManager.cpp lines 120-123: register the loaded texture, writing
`m_textureIDs[m_loadedTextures]` and incrementing `m_loadedTextures`.
No bounds check is performed against the 16-slot array. -/
def registerLoadedTexture (tag : String) (textureID : Nat) (st : SceneState) : SceneState :=
  { st with
    textureIDs := fun i => if i = st.loadedTextures then ⟨tag, textureID⟩ else st.textureIDs i
    loadedTextures := st.loadedTextures + 1 }

/-- The array index written by a successful CreateGLTexture, i.e.
`m_loadedTextures` at entry (SceneManager.cpp line 121). -/
def createWriteIndex (st : SceneState) : Nat :=
  st.loadedTextures

/-- SceneManager::CreateGLTexture (SceneManager.cpp lines 68-132).  `image`
is the stbi_load result.  On decode failure: return false, state untouched.
On a channel count other than 3 or 4: return false after glGenTextures
already ran (only the fresh-ID counter moved); the registry is untouched.
Otherwise the texture is registered under `tag` and true is returned. -/
def CreateGLTexture (image : Option ImageData) (tag : String) (st : SceneState) :
    Bool × SceneState :=
  match image with
  | some img =>
      let textureID := st.nextTextureID
      let st1 := { st with nextTextureID := st.nextTextureID + 1 }
      if img.colorChannels = 3 then (true, registerLoadedTexture tag textureID st1)
      else if img.colorChannels = 4 then (true, registerLoadedTexture tag textureID st1)
      else (false, st1)
  | none => (false, st)

/-- The while loop of SceneManager::FindTextureSlot (lines 202-211): scan
indices `index, index+1, ...` while `index < m_loadedTextures` (`remaining`
counts the indices left) until the tag matches; -1 when the scan ends. -/
def findSlotLoop (textureIDs : Nat → TEXTURE_INFO) (tag : String) :
    Nat → Nat → Int
  | 0, _ => -1
  | remaining + 1, index =>
      if (textureIDs index).tag = tag then (index : Int)
      else findSlotLoop textureIDs tag remaining (index + 1)

/-- SceneManager::FindTextureSlot (SceneManager.cpp lines 196-214): slot
index of the texture with the given tag, or the sentinel -1. -/
def FindTextureSlot (st : SceneState) (tag : String) : Int :=
  findSlotLoop st.textureIDs tag st.loadedTextures 0

/-- The while loop of SceneManager::FindMaterial (lines 231-246): on the
first entry whose tag matches, copy its five data fields into the by-ref
out-parameter `material` (the `tag` field is not copied); otherwise leave
`material` as passed in. -/
def findMaterialLoop (mats : List OBJECT_MATERIAL) (tag : String)
    (material : OBJECT_MATERIAL) : OBJECT_MATERIAL :=
  match mats with
  | [] => material
  | m :: rest =>
      if m.tag = tag then
        { material with
          ambientColor := m.ambientColor
          ambientStrength := m.ambientStrength
          diffuseColor := m.diffuseColor
          specularColor := m.specularColor
          shininess := m.shininess }
      else findMaterialLoop rest tag material

/-- SceneManager::FindMaterial (SceneManager.cpp lines 222-249).  Returns
false only when the registry is empty; otherwise it runs the search loop and
then returns true UNCONDITIONALLY (line 248 is `return(true)` whether or not
`bFound` was set), leaving `material` untouched on a miss. -/
def FindMaterial (mats : List OBJECT_MATERIAL) (tag : String)
    (material : OBJECT_MATERIAL) : Bool × OBJECT_MATERIAL :=
  if mats.length = 0 then (false, material)
  else (true, findMaterialLoop mats tag material)

/-- SceneManager::SetTransformations (SceneManager.cpp lines 257-287):
computes the model matrix and uploads it to the "model" uniform (the
m_pShaderManager null guard is dropped: the manager is always constructed
with a shader manager in this program). -/
def SetTransformations (cosF sinF : ℚ → ℚ) (pi : ℚ) (scaleXYZ : Vec3)
    (XrotationDegrees YrotationDegrees ZrotationDegrees : ℚ)
    (positionXYZ : Vec3) (st : SceneState) : SceneState :=
  { st with shader := { st.shader with
      model := SetTransformationsMatrix cosF sinF pi scaleXYZ
        XrotationDegrees YrotationDegrees ZrotationDegrees positionXYZ } }

/-- SceneManager::SetShaderColor (SceneManager.cpp lines 295-314): disables
the texture-sampling flag and sets the flat RGBA color. -/
def SetShaderColor (redColorValue greenColorValue blueColorValue alphaValue : ℚ)
    (st : SceneState) : SceneState :=
  { st with shader := { st.shader with
      bUseTexture := false
      objectColor := ⟨redColorValue, greenColorValue, blueColorValue, alphaValue⟩ } }

/-- SceneManager::SetShaderTexture (SceneManager.cpp lines 322-333): enables
the texture-sampling flag, then sets the sampler uniform to
`FindTextureSlot(textureTag)` (which is -1 on a lookup miss). -/
def SetShaderTexture (textureTag : String) (st : SceneState) : SceneState :=
  { st with shader := { st.shader with
      bUseTexture := true
      objectTexture := FindTextureSlot st textureTag } }

/-- SceneManager::SetTextureUVScale (SceneManager.cpp lines 341-347). -/
def SetTextureUVScale (u v : ℚ) (st : SceneState) : SceneState :=
  { st with shader := { st.shader with UVscale := ⟨u, v⟩ } }

/-- SceneManager::SetShaderMaterial (SceneManager.cpp lines 355-373).
`junk` models the uninitialized local `OBJECT_MATERIAL material` declared at
line 360, whose value is indeterminate in C++; it is universally quantified
in the theorems.  When FindMaterial returns true the five material uniforms
are written from that struct. -/
def SetShaderMaterial (junk : OBJECT_MATERIAL) (materialTag : String)
    (st : SceneState) : SceneState :=
  if st.objectMaterials.length > 0 then
    let r := FindMaterial st.objectMaterials materialTag junk
    if r.1 = true then
      { st with shader := { st.shader with
          materialAmbientColor := r.2.ambientColor
          materialAmbientStrength := r.2.ambientStrength
          materialDiffuseColor := r.2.diffuseColor
          materialSpecularColor := r.2.specularColor
          materialShininess := r.2.shininess } }
    else st
  else st

/-- SceneManager::SetShaderAttributes (SceneManager.cpp lines 572-592):
color, then texture (if not "none"), then UV-scale, then material (if not
"none"). -/
def SetShaderAttributes (junk : OBJECT_MATERIAL) (colorRGBA : Vec4)
    (texture : String) (UVscale : Vec2) (material : String)
    (st : SceneState) : SceneState :=
  let st1 := SetShaderColor colorRGBA.x colorRGBA.y colorRGBA.z colorRGBA.w st
  let st2 := if texture ≠ "none" then SetShaderTexture texture st1 else st1
  let st3 := SetTextureUVScale UVscale.x UVscale.y st2
  if material ≠ "none" then SetShaderMaterial junk material st3 else st3

/-- The six materials pushed by SceneManager::DefineObjectMaterials
(SceneManager.cpp lines 415-488), in push_back order. -/
def sceneMaterials : List OBJECT_MATERIAL :=
  [{ ambientStrength := 0.15, ambientColor := ⟨0.4, 0.4, 0.4⟩,
     diffuseColor := ⟨0.32, 0.32, 0.3⟩, specularColor := ⟨0.6, 0.6, 0.6⟩,
     shininess := 75, tag := "glass" },
   { ambientStrength := 0.2, ambientColor := ⟨0.25, 0.22, 0.2⟩,
     diffuseColor := ⟨0.25, 0.2, 0.15⟩, specularColor := ⟨0.2, 0.2, 0.2⟩,
     shininess := 5, tag := "wood" },
   { ambientStrength := 0.15, ambientColor := ⟨0.2, 0.2, 0.23⟩,
     diffuseColor := ⟨0.25, 0.255, 0.28⟩, specularColor := ⟨0.32, 0.32, 0.3⟩,
     shininess := 7, tag := "plastic" },
   { ambientStrength := 0.25, ambientColor := ⟨0.39, 0.37, 0.35⟩,
     diffuseColor := ⟨0.4, 0.37, 0.35⟩, specularColor := ⟨0.27, 0.3, 0.33⟩,
     shininess := 2, tag := "stone" },
   { ambientStrength := 0.4, ambientColor := ⟨0.23, 0.23, 0.21⟩,
     diffuseColor := ⟨0.3, 0.3, 0.25⟩, specularColor := ⟨0.45, 0.45, 0.45⟩,
     shininess := 25, tag := "metal" },
   { ambientStrength := 0.15, ambientColor := ⟨0.25, 0.28, 0.25⟩,
     diffuseColor := ⟨0.3, 0.34, 0.3⟩, specularColor := ⟨0.35, 0.35, 0.3⟩,
     shininess := 12, tag := "organic" }]

/-- SceneManager::DefineObjectMaterials: push_back the six materials. -/
def DefineObjectMaterials (st : SceneState) : SceneState :=
  { st with objectMaterials := st.objectMaterials ++ sceneMaterials }

/-- The ten (filename, tag) pairs loaded by SceneManager::LoadSceneTextures
(SceneManager.cpp lines 394-403), in call order. -/
def sceneTextureFiles : List (String × String) :=
  [("../../Utilities/textures/tile.jpg", "backdrop"),
   ("../../Utilities/textures/counter.jpg", "counter"),
   ("../../Utilities/textures/knife_handle.jpg", "wood"),
   ("../../Utilities/textures/metal.jpg", "metal"),
   ("../../Utilities/textures/marble.jpg", "marble"),
   ("../../Utilities/textures/drywall.jpg", "plastic"),
   ("../../Utilities/textures/cucumber_outer.jpeg", "cucumber_outer"),
   ("../../Utilities/textures/cucumber_inner.jpg", "cucumber_inner"),
   ("../../Utilities/textures/glass10.png", "glass10"),
   ("../../Utilities/textures/glass13.png", "glass13")]

/-- SceneManager::LoadSceneTextures (SceneManager.cpp lines 390-407): call
CreateGLTexture on each file in order, ignoring each boolean result
(`bReturn` is overwritten and never tested), so a failed load never stops
the later ones.  `loadImage` is the image-decoding collaborator.  The final
BindGLTextures call only binds GL texture units and is not modeled. -/
def LoadSceneTextures (loadImage : String → Option ImageData) (st : SceneState) :
    SceneState :=
  sceneTextureFiles.foldl (fun s p => (CreateGLTexture (loadImage p.1) p.2 s).2) st

/-- Whether loading a given (filename, tag) pair would succeed: the image
decodes and has 3 or 4 channels. -/
def okLoad (loadImage : String → Option ImageData) (p : String × String) : Bool :=
  match loadImage p.1 with
  | none => false
  | some img => img.colorChannels == 3 || img.colorChannels == 4

/-- The tags registered in the texture registry, in slot order. -/
def registeredTags (st : SceneState) : List String :=
  (List.range st.loadedTextures).map fun i => (st.textureIDs i).tag

/-- Load a list of already-decoded images with tags via CreateGLTexture. -/
def loadTexturesFromList (pairs : List (ImageData × String)) (st : SceneState) :
    SceneState :=
  pairs.foldl (fun s p => (CreateGLTexture (some p.1) p.2 s).2) st

/-- The fixed set of primitive-draw selectors of ShapeMeshWrappers.h: which
primitive, with which baked-in flag configuration, a draw call invokes. -/
inductive MeshDrawFunction where
  | box
  | cone
  | cylinder
  | hollowCylinder
  | noSideCylinder
  | plane
  | prism
  | pyramid3
  | pyramid4
  | sphere
  | halfSphere
  | taperedCylinder
  | torus
  | halfTorus
  | noDraw
deriving DecidableEq, Repr

/-- One call issued by a compound-object assembler: a full attribute
application, a texture-only change, a UV-scale change, or a transformed
primitive draw (SetTransformations followed by the mesh draw, i.e.
DrawMeshTransformation). -/
inductive RenderEvent where
  | setShaderAttributes (colorRGBA : Vec4) (texture : String) (UVscale : Vec2)
      (material : String)
  | setShaderTexture (textureTag : String)
  | setTextureUVScale (u v : ℚ)
  | drawMesh (scaleXYZ rotationDegreesXYZ positionXYZ : Vec3)
      (drawMeshFunction : MeshDrawFunction)
deriving DecidableEq, Repr

/-- SceneManager::DrawJar (SceneManager.cpp lines 721-821) as the ordered
trace of calls it issues, with every constant transcribed from the source;
each sub-part position is `(jarX_pos + dx, jarY_pos + dy, jarZ_pos + dz)`
exactly as written there. -/
def DrawJar (x_pos y_pos z_pos : ℚ) : List RenderEvent :=
  let jarX_pos := x_pos
  let jarY_pos := y_pos
  let jarZ_pos := z_pos
  [RenderEvent.setShaderAttributes ⟨0.7, 0.7, 0.9, 0.8⟩ "glass13" ⟨1, 0.35⟩ "glass",
   -- rounded base bottom sphere
   RenderEvent.drawMesh ⟨2, 0.3, 2⟩ ⟨0, 0, 0⟩
     ⟨jarX_pos + 0, jarY_pos + 0.15, jarZ_pos + 0⟩ MeshDrawFunction.sphere,
   -- cylinder base
   RenderEvent.drawMesh ⟨2, 4.05, 2⟩ ⟨0, 0, 0⟩
     ⟨jarX_pos + 0, jarY_pos + 0.15, jarZ_pos + 0⟩ MeshDrawFunction.cylinder,
   -- rounded base top sphere
   RenderEvent.setTextureUVScale 1 0.25,
   RenderEvent.drawMesh ⟨2.02, 0.7, 2.02⟩ ⟨0, -10, 0⟩
     ⟨jarX_pos + 0, jarY_pos + 4.2, jarZ_pos + 0⟩ MeshDrawFunction.sphere,
   -- rounded neck cylinder
   RenderEvent.setTextureUVScale 0.8 0.1,
   RenderEvent.drawMesh ⟨1.6, 0.80, 1.6⟩ ⟨0, 8, 0⟩
     ⟨jarX_pos + 0, jarY_pos + 4.4, jarZ_pos + 0⟩ MeshDrawFunction.cylinder,
   -- neck torus large
   RenderEvent.setTextureUVScale 1.5 0.3,
   RenderEvent.drawMesh ⟨1.48, 1.48, 0.65⟩ ⟨90, 0, 0⟩
     ⟨jarX_pos + 0, jarY_pos + 5.10, jarZ_pos + 0⟩ MeshDrawFunction.torus,
   -- switch to the lid texture
   RenderEvent.setShaderTexture "glass10",
   RenderEvent.setTextureUVScale 2 1,
   -- lid torus large
   RenderEvent.drawMesh ⟨1.5, 1.5, 0.5⟩ ⟨90, 0, 0⟩
     ⟨jarX_pos + 0, jarY_pos + 5.25, jarZ_pos + 0⟩ MeshDrawFunction.torus,
   -- lid sphere large
   RenderEvent.drawMesh ⟨1.6, 0.16, 1.6⟩ ⟨0, 0, 0⟩
     ⟨jarX_pos + 0, jarY_pos + 5.25, jarZ_pos + 0⟩ MeshDrawFunction.sphere,
   -- lid cylinder
   RenderEvent.setTextureUVScale 2 1,
   RenderEvent.drawMesh ⟨0.9, 0.5, 0.9⟩ ⟨0, 0, 0⟩
     ⟨jarX_pos + 0, jarY_pos + 5.2, jarZ_pos + 0⟩ MeshDrawFunction.cylinder,
   -- lid torus small
   RenderEvent.setTextureUVScale 1.5 1,
   RenderEvent.drawMesh ⟨1.1, 1.1, 0.5⟩ ⟨90, 0, 0⟩
     ⟨jarX_pos + 0, jarY_pos + 5.7, jarZ_pos + 0⟩ MeshDrawFunction.torus,
   -- lid sphere top
   RenderEvent.drawMesh ⟨1.1, 0.2, 1.1⟩ ⟨0, 0, 0⟩
     ⟨jarX_pos + 0, jarY_pos + 5.65, jarZ_pos + 0⟩ MeshDrawFunction.sphere]

/-- The sub-part draws of an event trace: (scale, rotation, position, shape). -/
def drawCalls (events : List RenderEvent) :
    List (Vec3 × Vec3 × Vec3 × MeshDrawFunction) :=
  events.filterMap fun e =>
    match e with
    | RenderEvent.drawMesh s r p f => some (s, r, p, f)
    | _ => none

/-- The shape selectors of the sub-part draws of a trace, in order. -/
def drawShapes (events : List RenderEvent) : List MeshDrawFunction :=
  events.filterMap fun e =>
    match e with
    | RenderEvent.drawMesh _ _ _ f => some f
    | _ => none

/-- The positions of the sub-part draws of a trace, in order. -/
def drawPositions (events : List RenderEvent) : List Vec3 :=
  events.filterMap fun e =>
    match e with
    | RenderEvent.drawMesh _ _ p _ => some p
    | _ => none

/-- Shift the position of every sub-part draw of a trace by a fixed delta,
leaving every other event (attributes, texture, UV-scale) unchanged. -/
def shiftEvent (dx dy dz : ℚ) : RenderEvent → RenderEvent
  | RenderEvent.drawMesh s r p f =>
      RenderEvent.drawMesh s r ⟨p.x + dx, p.y + dy, p.z + dz⟩ f
  | e => e

/-- The fixed origin-relative offsets of the ten jar sub-parts, transcribed
from the position constants of SceneManager::DrawJar. -/
def jarOffsets : List Vec3 :=
  [⟨0, 0.15, 0⟩, ⟨0, 0.15, 0⟩, ⟨0, 4.2, 0⟩, ⟨0, 4.4, 0⟩, ⟨0, 5.10, 0⟩,
   ⟨0, 5.25, 0⟩, ⟨0, 5.25, 0⟩, ⟨0, 5.2, 0⟩, ⟨0, 5.7, 0⟩, ⟨0, 5.65, 0⟩]

/-- The zoom-in branch of ViewManager::ProcessKeyboardEvents (viewmanager.cpp
lines 234-239): on a KEY_UP press, if `Zoom >= 10` then `Zoom -= 0.01`. -/
def processZoomIn (Zoom : ℚ) : ℚ :=
  if Zoom ≥ 10 then Zoom - 0.01 else Zoom

/-- The zoom-out branch of ViewManager::ProcessKeyboardEvents (viewmanager.cpp
lines 241-246): on a KEY_DOWN press, if `Zoom <= 160` then `Zoom += 0.01`. -/
def processZoomOut (Zoom : ℚ) : ℚ :=
  if Zoom ≤ 160 then Zoom + 0.01 else Zoom

/-- One concrete value for the uninitialized local `OBJECT_MATERIAL material`
of SetShaderMaterial (its C++ value is indeterminate; theorems either
quantify over it or, as here, exhibit one possible value). -/
def junkMaterial : OBJECT_MATERIAL :=
  { ambientStrength := 101, ambientColor := ⟨102, 103, 104⟩,
    diffuseColor := ⟨105, 106, 107⟩, specularColor := ⟨108, 109, 110⟩,
    shininess := 111, tag := "" }

/-- A state whose material registry is the scene's six materials and whose
shader holds a previously uploaded shininess of 42. -/
def materialDemoState : SceneState :=
  DefineObjectMaterials
    { initialSceneState with
      shader := { initialShaderState with materialShininess := 42 } }

/-- Three decodable images tagged "a", "b", "c", in that load order. -/
def demoPairs : List (ImageData × String) :=
  [(⟨2, 2, 3⟩, "a"), (⟨2, 2, 4⟩, "b"), (⟨2, 2, 3⟩, "c")]

/-- The registry state after loading the three demo textures. -/
def textureDemoState : SceneState :=
  loadTexturesFromList demoPairs initialSceneState

/-! ## Theorems -/

lemma glmRotate_unitX (c s : ℚ) : glmRotate c s 1 0 0 = specRotateX c s := by
  simp only [glmRotate, specRotateX, Mat4.mk.injEq]
  repeat' apply And.intro
  all_goals ring_nf

lemma glmRotate_unitY (c s : ℚ) : glmRotate c s 0 1 0 = specRotateY c s := by
  simp only [glmRotate, specRotateY, Mat4.mk.injEq]
  repeat' apply And.intro
  all_goals ring_nf

lemma glmRotate_unitZ (c s : ℚ) : glmRotate c s 0 0 1 = specRotateZ c s := by
  simp only [glmRotate, specRotateZ, Mat4.mk.injEq]
  repeat' apply And.intro
  all_goals ring_nf

/-- C1: for every scale vector, per-axis rotation in degrees, and position
vector (and every interpretation of cos, sin and π), SetTransformations
computes the model matrix `Translate(position) * RotateX(x) * RotateY(y) *
RotateZ(z) * Scale(scale)`, converting each angle from degrees to radians
before constructing its rotation matrix, and uploads exactly that matrix to
the shader's "model" uniform. -/
theorem setTransformations_model_spec (cosF sinF : ℚ → ℚ) (pi : ℚ)
    (scaleXYZ : Vec3) (xr yr zr : ℚ) (positionXYZ : Vec3) (st : SceneState) :
    SetTransformationsMatrix cosF sinF pi scaleXYZ xr yr zr positionXYZ =
      specModelMatrix cosF sinF pi scaleXYZ xr yr zr positionXYZ ∧
    (SetTransformations cosF sinF pi scaleXYZ xr yr zr positionXYZ st).shader.model =
      specModelMatrix cosF sinF pi scaleXYZ xr yr zr positionXYZ := by
  have h : SetTransformationsMatrix cosF sinF pi scaleXYZ xr yr zr positionXYZ =
      specModelMatrix cosF sinF pi scaleXYZ xr yr zr positionXYZ := by
    simp only [SetTransformationsMatrix, specModelMatrix,
      glmRotate_unitX, glmRotate_unitY, glmRotate_unitZ]
    rfl
  exact ⟨h, h⟩

/-- C2 counterexample: the jar's draw sequence does NOT contain exactly 9
sub-part draws — at the origin (6.0, 0.0, -6.2) it contains 10 (the claim's
own shape-order list has ten entries). -/
theorem drawJar_not_nine_draws :
    ¬ (drawCalls (DrawJar 6 0 (-6.2))).length = 9 := by
  simp [DrawJar, drawCalls]

/-- C2 (amended): given origin (6.0, 0.0, -6.2), the jar's first sub-part
draw is a sphere with scale (2.0, 0.3, 2.0) at position (6.0, 0.15, -6.2);
the draw sequence contains exactly 10 sub-part draws in the shape order
sphere, cylinder, sphere, cylinder, torus, torus, sphere, cylinder, torus,
sphere; and the UV-scale is changed to (1.5, 0.3) between the neck-cylinder
draw and the torus drawn right after it. -/
theorem drawJar_sequence_spec :
    (drawCalls (DrawJar 6 0 (-6.2))).head? =
      some (⟨2, 0.3, 2⟩, ⟨0, 0, 0⟩, ⟨6, 0.15, -6.2⟩, MeshDrawFunction.sphere) ∧
    (drawCalls (DrawJar 6 0 (-6.2))).length = 10 ∧
    drawShapes (DrawJar 6 0 (-6.2)) =
      [MeshDrawFunction.sphere, MeshDrawFunction.cylinder,
       MeshDrawFunction.sphere, MeshDrawFunction.cylinder,
       MeshDrawFunction.torus, MeshDrawFunction.torus,
       MeshDrawFunction.sphere, MeshDrawFunction.cylinder,
       MeshDrawFunction.torus, MeshDrawFunction.sphere] ∧
    (DrawJar 6 0 (-6.2)).get? 6 =
      some (RenderEvent.drawMesh ⟨1.6, 0.80, 1.6⟩ ⟨0, 8, 0⟩ ⟨6, 4.4, -6.2⟩
        MeshDrawFunction.cylinder) ∧
    (DrawJar 6 0 (-6.2)).get? 7 = some (RenderEvent.setTextureUVScale 1.5 0.3) ∧
    (DrawJar 6 0 (-6.2)).get? 8 =
      some (RenderEvent.drawMesh ⟨1.48, 1.48, 0.65⟩ ⟨90, 0, 0⟩ ⟨6, 5.10, -6.2⟩
        MeshDrawFunction.torus) := by
  simp [DrawJar, drawCalls, drawShapes]

/-- C8: the code's zoom stepping overshoots the documented [10, 160] range:
a zoom-in request at exactly 10 is accepted (10 → 9.99, where it then
settles), and a zoom-out request at exactly 160 is accepted (160 → 160.01,
where it then settles), contradicting the claim that requests at the bounds
are rejected and that the value stays within [10, 160]. -/
theorem zoomClamp_code_behavior :
    processZoomIn 10 = 9.99 ∧
    processZoomIn 9.99 = 9.99 ∧
    ¬ (10 : ℚ) ≤ processZoomIn 10 ∧
    processZoomOut 160 = 160.01 ∧
    processZoomOut 160.01 = 160.01 := by
  norm_num [processZoomIn, processZoomOut]

/-- C4: contrary to the claim, a material-tag lookup miss does NOT leave the
previously uploaded material uniforms unchanged: with the scene's six
materials registered, FindMaterial("missing") returns true (line 248 returns
true whenever the registry is nonempty), so SetShaderMaterial uploads all
five material uniforms from the uninitialized local struct, overwriting the
previous values. -/
theorem setShaderMaterial_miss_writes_uniforms :
    (FindMaterial sceneMaterials "missing" junkMaterial).1 = true ∧
    (SetShaderMaterial junkMaterial "missing" materialDemoState).shader.materialShininess
      = junkMaterial.shininess ∧
    (SetShaderMaterial junkMaterial "missing" materialDemoState).shader.materialShininess
      ≠ materialDemoState.shader.materialShininess := by
  simp [FindMaterial, findMaterialLoop, sceneMaterials, SetShaderMaterial,
    materialDemoState, DefineObjectMaterials, initialSceneState, initialShaderState,
    junkMaterial]

/-- C3: attribute composition order is fixed — color, then texture, then
UV-scale, then material — and after a full attribute application with color
red, no texture, UV (1,1) and no material, a later call that changes only
the texture tag leaves the red color uniform unchanged, enables texturing,
and switches the bound texture slot to the tag's slot in the registry. -/
theorem setShaderAttributes_order_and_override (st : SceneState)
    (junk : OBJECT_MATERIAL) (colorRGBA : Vec4) (texture : String)
    (UVscale : Vec2) (material : String) (t : String) :
    SetShaderAttributes junk colorRGBA texture UVscale material st =
      (if material ≠ "none" then
        SetShaderMaterial junk material
          (SetTextureUVScale UVscale.x UVscale.y
            (if texture ≠ "none" then
              SetShaderTexture texture
                (SetShaderColor colorRGBA.x colorRGBA.y colorRGBA.z colorRGBA.w st)
            else SetShaderColor colorRGBA.x colorRGBA.y colorRGBA.z colorRGBA.w st))
      else
        SetTextureUVScale UVscale.x UVscale.y
          (if texture ≠ "none" then
            SetShaderTexture texture
              (SetShaderColor colorRGBA.x colorRGBA.y colorRGBA.z colorRGBA.w st)
          else SetShaderColor colorRGBA.x colorRGBA.y colorRGBA.z colorRGBA.w st)) ∧
    (SetShaderTexture t
      (SetShaderAttributes junk ⟨1, 0, 0, 1⟩ "none" ⟨1, 1⟩ "none" st)).shader.objectColor
      = ⟨1, 0, 0, 1⟩ ∧
    (SetShaderTexture t
      (SetShaderAttributes junk ⟨1, 0, 0, 1⟩ "none" ⟨1, 1⟩ "none" st)).shader.bUseTexture
      = true ∧
    (SetShaderTexture t
      (SetShaderAttributes junk ⟨1, 0, 0, 1⟩ "none" ⟨1, 1⟩ "none" st)).shader.objectTexture
      = FindTextureSlot st t := by
  refine ⟨rfl, ?_, ?_, ?_⟩ <;>
    simp [SetShaderAttributes, SetShaderColor, SetShaderTexture,
      SetTextureUVScale, FindTextureSlot]

/-- C6: each jar sub-part position is the origin plus a fixed constant
offset, so drawing the jar at a translated origin yields exactly the trace
at the original origin with every draw position shifted by the delta and
every scale, rotation, attribute and shape selector identical (DrawJar is a
pure function of its origin — invocations share no mutable state). -/
theorem drawJar_offsets_translation (x y z dx dy dz : ℚ) :
    DrawJar (x + dx) (y + dy) (z + dz) =
      (DrawJar x y z).map (shiftEvent dx dy dz) ∧
    drawPositions (DrawJar x y z) =
      jarOffsets.map (fun o => ⟨x + o.x, y + o.y, z + o.z⟩) := by
  constructor
  · simp only [DrawJar, shiftEvent, List.map_cons, List.map_nil,
      List.cons.injEq, RenderEvent.drawMesh.injEq, Vec3.mk.injEq,
      and_true, true_and]
    repeat' apply And.intro
    all_goals first | rfl | ring
  · rfl

lemma findSlotLoop_eq_neg_one (ids : Nat → TEXTURE_INFO) (tag : String) :
    ∀ remaining index, (∀ j, j < remaining → (ids (index + j)).tag ≠ tag) →
      findSlotLoop ids tag remaining index = -1 := by
  intro remaining
  induction remaining with
  | zero => intro index _; rfl
  | succ r ih =>
      intro index h
      have h0 : (ids index).tag ≠ tag := by
        simpa using h 0 (Nat.succ_pos r)
      have hs : ∀ j, j < r → (ids (index + 1 + j)).tag ≠ tag := by
        intro j hj
        have e : index + (j + 1) = index + 1 + j := by omega
        have := h (j + 1) (by omega)
        rwa [e] at this
      simp only [findSlotLoop, if_neg h0]
      exact ih (index + 1) hs

lemma findSlotLoop_found (ids : Nat → TEXTURE_INFO) (tag : String) :
    ∀ remaining i index, i < remaining → (ids (index + i)).tag = tag →
      (∀ j, j < i → (ids (index + j)).tag ≠ tag) →
      findSlotLoop ids tag remaining index = ((index + i : Nat) : Int) := by
  intro remaining
  induction remaining with
  | zero => intro i index hi; omega
  | succ r ih =>
      intro i index hi hmatch hbefore
      by_cases h0 : (ids index).tag = tag
      · rcases Nat.eq_zero_or_pos i with hz | hp
        · subst hz
          simp only [findSlotLoop, if_pos h0, Nat.add_zero]
        · exact absurd h0 (by simpa using hbefore 0 hp)
      · have hp : 0 < i := by
          rcases Nat.eq_zero_or_pos i with hz | hp
          · subst hz
            simp only [Nat.add_zero] at hmatch
            exact absurd hmatch h0
          · exact hp
        simp only [findSlotLoop, if_neg h0]
        have hrec := ih (i - 1) (index + 1) (by omega)
          (by rw [show index + 1 + (i - 1) = index + i by omega]; exact hmatch)
          (by
            intro j hj
            have e : index + (j + 1) = index + 1 + j := by omega
            have := hbefore (j + 1) (by omega)
            rwa [e] at this)
        rw [hrec]
        have e2 : index + 1 + (i - 1) = index + i := by omega
        rw [e2]

/-- C10: SetShaderTexture always enables the use-texture shader flag (it is
set to true before the lookup), and sets the sampler uniform to the tag's
slot — so for a tag absent from the registry, texturing stays enabled with
the sampler uniform set to -1 rather than reverting to the untextured
state. -/
theorem setShaderTexture_enables_texturing (st : SceneState) (tag : String) :
    (SetShaderTexture tag st).shader.bUseTexture = true ∧
    (SetShaderTexture tag st).shader.objectTexture = FindTextureSlot st tag ∧
    ((∀ i, i < st.loadedTextures → (st.textureIDs i).tag ≠ tag) →
      (SetShaderTexture tag st).shader.objectTexture = -1) := by
  refine ⟨rfl, rfl, ?_⟩
  intro h
  show FindTextureSlot st tag = -1
  exact findSlotLoop_eq_neg_one st.textureIDs tag st.loadedTextures 0
    (fun j hj => by simpa using h j hj)

/-- C10 witness: on the registry holding "a", "b", "c", looking up the
absent tag "missing" leaves texturing enabled with the sampler at -1. -/
theorem setShaderTexture_enables_texturing_witness :
    (SetShaderTexture "missing" textureDemoState).shader.bUseTexture = true ∧
    (SetShaderTexture "missing" textureDemoState).shader.objectTexture = -1 := by
  refine ⟨(setShaderTexture_enables_texturing textureDemoState "missing").1,
    (setShaderTexture_enables_texturing textureDemoState "missing").2.2 ?_⟩
  decide

lemma createGLTexture_ok (img : ImageData) (tag : String) (st : SceneState)
    (h : img.colorChannels = 3 ∨ img.colorChannels = 4) :
    CreateGLTexture (some img) tag st =
      (true, registerLoadedTexture tag st.nextTextureID
        { st with nextTextureID := st.nextTextureID + 1 }) := by
  rcases h with h | h <;> simp [CreateGLTexture, h]

/-- C9: under the precondition that fewer than 16 textures are loaded, a
successful CreateGLTexture writes the new entry at index `m_loadedTextures`,
within the bounds of the 16-slot array, and increments the loaded-texture
count by exactly one; and since no bounds check is performed, a load with 16
textures already registered writes at index 16, outside the array bounds. -/
theorem createGLTexture_capacity (st : SceneState) (img : ImageData)
    (tag : String) (hcap : st.loadedTextures < 16)
    (hok : img.colorChannels = 3 ∨ img.colorChannels = 4) :
    createWriteIndex st < 16 ∧
    (CreateGLTexture (some img) tag st).1 = true ∧
    (CreateGLTexture (some img) tag st).2.loadedTextures = st.loadedTextures + 1 ∧
    ((CreateGLTexture (some img) tag st).2.textureIDs (createWriteIndex st)).tag = tag ∧
    ∀ st2 : SceneState, st2.loadedTextures = 16 → ¬ createWriteIndex st2 < 16 := by
  rw [createGLTexture_ok img tag st hok]
  refine ⟨hcap, rfl, rfl, ?_, ?_⟩
  · simp [registerLoadedTexture, createWriteIndex]
  · intro st2 h2
    simp [createWriteIndex, h2]

/-- C9 witness: loading a 3-channel texture into the empty registry writes
slot 0 (in bounds) and brings the count to 1. -/
theorem createGLTexture_capacity_witness :
    createWriteIndex initialSceneState < 16 ∧
    (CreateGLTexture (some ⟨2, 2, 3⟩) "backdrop" initialSceneState).1 = true ∧
    (CreateGLTexture (some ⟨2, 2, 3⟩) "backdrop" initialSceneState).2.loadedTextures
      = 0 + 1 := by
  have h := createGLTexture_capacity initialSceneState ⟨2, 2, 3⟩ "backdrop"
    (by decide) (Or.inl rfl)
  exact ⟨h.1, h.2.1, h.2.2.1⟩

lemma loadTexturesFromList_state (pairs : List (ImageData × String)) :
    ∀ st : SceneState, (∀ p ∈ pairs, p.1.colorChannels = 3 ∨ p.1.colorChannels = 4) →
      (loadTexturesFromList pairs st).loadedTextures = st.loadedTextures + pairs.length ∧
      (∀ j, j < st.loadedTextures →
        (loadTexturesFromList pairs st).textureIDs j = st.textureIDs j) ∧
      (∀ k (hk : k < pairs.length),
        ((loadTexturesFromList pairs st).textureIDs (st.loadedTextures + k)).tag =
          (pairs.get ⟨k, hk⟩).2) := by
  induction pairs with
  | nil =>
      intro st _
      refine ⟨by simp [loadTexturesFromList], fun j _ => rfl, fun k hk => ?_⟩
      exact absurd hk (by simp)
  | cons p rest ih =>
      intro st hok
      have hp := hok p (List.mem_cons_self p rest)
      have hstep : loadTexturesFromList (p :: rest) st =
          loadTexturesFromList rest (registerLoadedTexture p.2 st.nextTextureID
            { st with nextTextureID := st.nextTextureID + 1 }) := by
        simp [loadTexturesFromList, createGLTexture_ok p.1 p.2 st hp]
      set st1 := registerLoadedTexture p.2 st.nextTextureID
        { st with nextTextureID := st.nextTextureID + 1 } with hst1
      obtain ⟨ihc, ihpres, ihnew⟩ := ih st1 (fun q hq => hok q (List.mem_cons_of_mem p hq))
      have hc1 : st1.loadedTextures = st.loadedTextures + 1 := rfl
      refine ⟨?_, ?_, ?_⟩
      · rw [hstep, ihc, hc1]
        simp only [List.length_cons]
        omega
      · intro j hj
        rw [hstep, ihpres j (by omega)]
        simp only [hst1, registerLoadedTexture]
        rw [if_neg (by omega)]
      · intro k hk
        cases k with
        | zero =>
            rw [hstep, Nat.add_zero, ihpres st.loadedTextures (by omega)]
            simp [hst1, registerLoadedTexture]
        | succ n =>
            rw [hstep]
            have hn : n < rest.length := by simpa using hk
            have hidx : st.loadedTextures + (n + 1) = st1.loadedTextures + n := by
              rw [hc1]; omega
            rw [hidx, ihnew n hn]
            rfl

/-- C5: after loading decodable textures with pairwise-distinct tags in some
order, FindTextureSlot of the i-th loaded tag returns i (zero-indexed), and
FindTextureSlot of any tag not in the registry returns the sentinel -1. -/
theorem findTextureSlot_after_load (pairs : List (ImageData × String))
    (hok : ∀ p ∈ pairs, p.1.colorChannels = 3 ∨ p.1.colorChannels = 4)
    (hnodup : (pairs.map Prod.snd).Nodup) :
    (∀ i (hi : i < pairs.length),
      FindTextureSlot (loadTexturesFromList pairs initialSceneState)
        (pairs.get ⟨i, hi⟩).2 = i) ∧
    (∀ tag, tag ∉ pairs.map Prod.snd →
      FindTextureSlot (loadTexturesFromList pairs initialSceneState) tag = -1) := by
  obtain ⟨hc, -, hnew⟩ := loadTexturesFromList_state pairs initialSceneState hok
  have hc0 : (loadTexturesFromList pairs initialSceneState).loadedTextures =
      pairs.length := by
    simpa [initialSceneState] using hc
  have htag : ∀ k (hk : k < pairs.length),
      ((loadTexturesFromList pairs initialSceneState).textureIDs k).tag =
        (pairs.get ⟨k, hk⟩).2 := by
    intro k hk
    simpa [initialSceneState] using hnew k hk
  constructor
  · intro i hi
    have hne : ∀ j (hj : j < pairs.length), j ≠ i →
        (pairs.get ⟨j, hj⟩).2 ≠ (pairs.get ⟨i, hi⟩).2 := by
      intro j hj hji hcontra
      have hj2 : j < (pairs.map Prod.snd).length := by simpa using hj
      have hi2 : i < (pairs.map Prod.snd).length := by simpa using hi
      have hmap : (pairs.map Prod.snd)[j] = (pairs.map Prod.snd)[i] := by
        simpa [List.getElem_map, List.get_eq_getElem] using hcontra
      exact hji (hnodup.getElem_inj_iff.1 hmap)
    have hfound := findSlotLoop_found
      (loadTexturesFromList pairs initialSceneState).textureIDs
      (pairs.get ⟨i, hi⟩).2
      (loadTexturesFromList pairs initialSceneState).loadedTextures i 0
      (by rw [hc0]; exact hi)
      (by simpa using htag i hi)
      (by
        intro j hj
        have hj' : j < pairs.length := by omega
        rw [Nat.zero_add, htag j hj']
        exact hne j hj' (by omega))
    simpa [FindTextureSlot] using hfound
  · intro tag hmem
    apply findSlotLoop_eq_neg_one
    intro j hj
    have hj' : j < pairs.length := by rw [hc0] at hj; exact hj
    rw [Nat.zero_add, htag j hj']
    intro hcontra
    exact hmem (hcontra ▸ List.mem_map_of_mem Prod.snd (List.get_mem pairs j hj'))

/-- C5 witness: after loading tags "a", "b", "c" in that order, looking up
"b" yields slot 1 and looking up "missing" yields -1. -/
theorem findTextureSlot_after_load_witness :
    FindTextureSlot textureDemoState "b" = 1 ∧
    FindTextureSlot textureDemoState "missing" = -1 := by
  have h := findTextureSlot_after_load demoPairs (by decide) (by decide)
  exact ⟨h.1 1 (by decide), h.2 "missing" (by decide)⟩

lemma registeredTags_registerLoadedTexture (tag : String) (tid : Nat)
    (st : SceneState) :
    registeredTags (registerLoadedTexture tag tid st) =
      registeredTags st ++ [tag] := by
  simp only [registeredTags, registerLoadedTexture]
  rw [show st.loadedTextures + 1 = Nat.succ st.loadedTextures from rfl,
    List.range_succ, List.map_append]
  congr 1
  · apply List.map_congr_left
    intro i hi
    rw [List.mem_range] at hi
    simp [Nat.ne_of_lt hi]
  · simp

lemma registeredTags_createStep (loadImage : String → Option ImageData)
    (p : String × String) (st : SceneState) :
    registeredTags (CreateGLTexture (loadImage p.1) p.2 st).2 =
      registeredTags st ++ if okLoad loadImage p then [p.2] else [] := by
  cases h : loadImage p.1 with
  | none => simp [CreateGLTexture, okLoad, h]
  | some img =>
      have hre : registeredTags { st with nextTextureID := st.nextTextureID + 1 } =
          registeredTags st := rfl
      by_cases h3 : img.colorChannels = 3
      · rw [createGLTexture_ok img p.2 st (Or.inl h3),
          registeredTags_registerLoadedTexture, hre]
        simp [okLoad, h, h3]
      · by_cases h4 : img.colorChannels = 4
        · rw [createGLTexture_ok img p.2 st (Or.inr h4),
            registeredTags_registerLoadedTexture, hre]
          simp [okLoad, h, h4]
        · have hfail : (CreateGLTexture (some img) p.2 st).2 =
              { st with nextTextureID := st.nextTextureID + 1 } := by
            simp [CreateGLTexture, h3, h4]
          rw [hfail, hre]
          simp [okLoad, h, h3, h4]

lemma registeredTags_fold (loadImage : String → Option ImageData) :
    ∀ (files : List (String × String)) (st : SceneState),
      registeredTags
        (files.foldl (fun s p => (CreateGLTexture (loadImage p.1) p.2 s).2) st) =
        registeredTags st ++ (files.filter (okLoad loadImage)).map Prod.snd := by
  intro files
  induction files with
  | nil => intro st; simp
  | cons p rest ih =>
      intro st
      simp only [List.foldl_cons]
      rw [ih, registeredTags_createStep, List.filter_cons]
      by_cases h : okLoad loadImage p
      · simp [h, List.append_assoc]
      · simp [h]

/-- C7: a texture load that fails (image decode failure, or a channel count
other than 3 or 4) returns false and leaves the texture registry — entries
and loaded-texture count — unchanged; and LoadSceneTextures keeps loading
every remaining texture regardless of earlier failures, so the final
registry holds exactly the successfully loaded tags in order, a successful
tag is always present, and a failed tag is absent. -/
theorem createGLTexture_failure_isolated :
    (∀ tag st, CreateGLTexture none tag st = (false, st)) ∧
    (∀ (img : ImageData) tag st, img.colorChannels ≠ 3 → img.colorChannels ≠ 4 →
      (CreateGLTexture (some img) tag st).1 = false ∧
      (CreateGLTexture (some img) tag st).2.loadedTextures = st.loadedTextures ∧
      (CreateGLTexture (some img) tag st).2.textureIDs = st.textureIDs) ∧
    (∀ loadImage, registeredTags (LoadSceneTextures loadImage initialSceneState) =
      (sceneTextureFiles.filter (okLoad loadImage)).map Prod.snd) ∧
    (∀ loadImage p, p ∈ sceneTextureFiles → okLoad loadImage p = true →
      p.2 ∈ registeredTags (LoadSceneTextures loadImage initialSceneState)) ∧
    (∀ loadImage p, p ∈ sceneTextureFiles → okLoad loadImage p = false →
      p.2 ∉ registeredTags (LoadSceneTextures loadImage initialSceneState)) := by
  have hmain : ∀ loadImage,
      registeredTags (LoadSceneTextures loadImage initialSceneState) =
        (sceneTextureFiles.filter (okLoad loadImage)).map Prod.snd := by
    intro loadImage
    have h := registeredTags_fold loadImage sceneTextureFiles initialSceneState
    simpa [LoadSceneTextures, registeredTags, initialSceneState] using h
  refine ⟨fun tag st => rfl, ?_, hmain, ?_, ?_⟩
  · intro img tag st h3 h4
    refine ⟨?_, ?_, ?_⟩ <;> simp [CreateGLTexture, h3, h4]
  · intro loadImage p hp hpok
    rw [hmain]
    exact List.mem_map_of_mem Prod.snd (List.mem_filter.2 ⟨hp, hpok⟩)
  · intro loadImage p hp hpok hmem
    rw [hmain] at hmem
    obtain ⟨q, hq, hq2⟩ := List.mem_map.1 hmem
    obtain ⟨hqfiles, hqok⟩ := List.mem_filter.1 hq
    have huniq : ∀ a ∈ sceneTextureFiles, ∀ b ∈ sceneTextureFiles,
        a.2 = b.2 → a = b := by decide
    have hqp : q = p := huniq q hqfiles p hp hq2
    rw [hqp, hpok] at hqok
    exact Bool.false_ne_true hqok

/-- C7 witness: a decode failure returns false with the state untouched, and
with a loader that fails on every file, "backdrop" is absent from the
registry after LoadSceneTextures. -/
theorem createGLTexture_failure_isolated_witness :
    CreateGLTexture none "backdrop" initialSceneState = (false, initialSceneState) ∧
    "backdrop" ∉ registeredTags (LoadSceneTextures (fun _ => none) initialSceneState) := by
  refine ⟨createGLTexture_failure_isolated.1 "backdrop" initialSceneState,
    createGLTexture_failure_isolated.2.2.2.2 (fun _ => none)
      ("../../Utilities/textures/tile.jpg", "backdrop") ?_ rfl⟩
  decide
